import Mathlib

/-!
Verification development for the voice_assistant_manager integration.

The embedding follows src/custom_components/voice_assistant_manager/api.py
and const.py. Handler coroutines become pure functions from the relevant
storage state and an environment of external outcomes to the new state and
the websocket response. Files of the repository that are referenced from
api.py but are not present under src (storage.py, validators.py,
homekit_manager.py, yaml_generator.py) are modelled from the specification,
and each such definition carries a doc comment saying so.
-/

namespace VAM

/-! ## Constants (const.py) -/

def FILTER_MODE_EXCLUDE : String := "exclude"

def FILTER_MODE_INCLUDE : String := "include"

def MAX_ALIAS_LENGTH : Nat := 128

def MAX_ENTITY_ID_LENGTH : Nat := 255

def MAX_BULK_ENTITIES : Nat := 500

/-! ## Data model

FilterConfig is stored as a dict with all five keys always present
(DEFAULT_FILTER_CONFIG in const.py), so it is embedded as a total
structure; the dict-get defaults in api.py are never taken. -/

structure FilterConfig where
  filter_mode : String
  domains : List String
  entities : List String
  devices : List String
  overrides : List String
  deriving Repr, DecidableEq

/-- The partial filter_config accepted by the set_filter_config command:
every field is vol.Optional in the command schema. -/
structure PartialFilterConfig where
  filter_mode : Option String
  domains : Option (List String)
  entities : Option (List String)
  devices : Option (List String)
  overrides : Option (List String)
  deriving Repr, DecidableEq

/-- A websocket response: connection.send_result carries a payload,
connection.send_error carries an error kind and message. -/
inductive Response (α : Type) where
  | result (payload : α)
  | error (kind : String) (message : String)
  deriving Repr, DecidableEq

/-! ## Validation Layer -/

/-- Modelled from the spec: validators.validate_filter_config is in
validators.py, which is not under src. The Validation Layer sanitizes and
bounds-checks mutation inputs; the data-model invariant is that
filter_mode is one of exclude and include. A config with a valid
filter_mode passes through unchanged. -/
def validate_filter_config (cfg : FilterConfig) : Except String FilterConfig :=
  if cfg.filter_mode == FILTER_MODE_EXCLUDE || cfg.filter_mode == FILTER_MODE_INCLUDE then
    Except.ok cfg
  else
    Except.error "invalid filter_mode"

/-! ## set_filter_config (api.py lines 321-351) -/

/-- The field-level merge performed by websocket_set_filter_config:
merged[k] = new_config.get(k, current.get(k, default)). -/
def mergeFilterConfig (new_config : PartialFilterConfig) (current : FilterConfig) : FilterConfig :=
  { filter_mode := new_config.filter_mode.getD current.filter_mode
    domains := new_config.domains.getD current.domains
    entities := new_config.entities.getD current.entities
    devices := new_config.devices.getD current.devices
    overrides := new_config.overrides.getD current.overrides }

/-- websocket_set_filter_config: read the current config from storage,
merge field-by-field with the partial input, validate, store, and send the
result; a validation failure sends validation_error and stores nothing. -/
def websocket_set_filter_config (stored : FilterConfig)
    (input : PartialFilterConfig) : FilterConfig × Response FilterConfig :=
  let merged := mergeFilterConfig input stored
  match validate_filter_config merged with
  | Except.ok validated => (validated, Response.result validated)
  | Except.error e => (stored, Response.error "validation_error" e)

/-! ## Filter Resolution Engine and toggle_override -/

/-- Read-only entity metadata, sourced externally. -/
structure EntityDescriptor where
  entity_id : String
  domain : String
  device_id : Option String
  deriving Repr, DecidableEq

/-- Modelled from the spec: the Filter Resolution Engine lives in files
not under src (yaml_generator.py, homekit_manager.py). matched is the OR
of the domain, entity and device criteria; base follows filter_mode; an
override unconditionally flips base. -/
def exposed (E : EntityDescriptor) (C : FilterConfig) : Bool :=
  let matched := C.domains.contains E.domain || C.entities.contains E.entity_id ||
    (match E.device_id with
     | some d => C.devices.contains d
     | none => false)
  let base := if C.filter_mode == FILTER_MODE_INCLUDE then matched else !matched
  if C.overrides.contains E.entity_id then !base else base

/-- Modelled from the spec: validators.validate_entity_id is in
validators.py, not under src. Bounds-checks the id; a non-empty id within
the length limit passes through unchanged. -/
def validate_entity_id (s : String) : Except String String :=
  if s == "" || MAX_ENTITY_ID_LENGTH < s.length then
    Except.error "invalid entity_id"
  else
    Except.ok s

/-- Modelled from the spec: storage.async_toggle_override is in
storage.py, not under src. Adds the id to overrides if absent (returns
true) or removes it if present (returns false); overrides is a set of
entity ids. -/
def async_toggle_override (cfg : FilterConfig) (entity_id : String) : FilterConfig × Bool :=
  if cfg.overrides.contains entity_id then
    ({ cfg with overrides := cfg.overrides.filter (fun x => x != entity_id) }, false)
  else
    ({ cfg with overrides := entity_id :: cfg.overrides }, true)

/-- websocket_toggle_override (api.py lines 393-415): validate the id,
toggle it in the overrides of the targeted config, and report added. -/
def websocket_toggle_override (stored : FilterConfig) (entity_id : String) :
    FilterConfig × Response (String × Bool) :=
  match validate_entity_id entity_id with
  | Except.error e => (stored, Response.error "validation_error" e)
  | Except.ok eid =>
    ((async_toggle_override stored eid).1,
      Response.result (eid, (async_toggle_override stored eid).2))

/-! ## bulk_update (api.py lines 455-579) -/

/-- Python truthiness fallback used in api.py for display names: a None
or empty-string candidate falls through to the next one. -/
def pyOrStr (a : Option String) (b : String) : String :=
  match a with
  | none => b
  | some s => if s == "" then b else s

/-- The registry fields read by api.py: name, original_name, device_id. -/
structure RegistryEntry where
  name : Option String
  original_name : Option String
  device_id : Option String
  deriving Repr, DecidableEq

/-- The state-machine fields read by api.py: only friendly_name. -/
structure HAState where
  friendly_name : Option String
  deriving Repr, DecidableEq

/-- External read-only directories: the entity registry and the state
machine, as association lists keyed by entity id. -/
structure Env where
  registry : List (String × RegistryEntry)
  states : List (String × HAState)
  deriving Repr, DecidableEq

/-- Display-name resolution in websocket_bulk_update (api.py lines
527-529 and 539-541): the state friendly_name, else the registry entry
name, else the original name, else the entity id; empty strings are
falsy in Python and fall through like None. -/
def resolveName (env : Env) (entity_id : String) (entry : RegistryEntry) : String :=
  let fromState := (env.states.lookup entity_id).bind (fun s => s.friendly_name)
  pyOrStr fromState (pyOrStr entry.name (pyOrStr entry.original_name entity_id))

/-- Python list(set(current)) after set.update(new): a duplicate-free
list whose membership is the union; the iteration order of a Python set
is unspecified, so the embedding fixes it by deduplication. -/
def pySetUnion (current new : List String) : List String :=
  (current ++ new).dedup

/-- Python list(set(current) - set(remove)). -/
def pySetDiff (current remove : List String) : List String :=
  current.dedup.filter (fun x => !(remove.contains x))

/-- Modelled from the spec: validators.validate_alias is in
validators.py, not under src; bounds-checks the alias against
MAX_ALIAS_LENGTH from const.py and passes it through. -/
def validate_alias (s : String) : Except String String :=
  if MAX_ALIAS_LENGTH < s.length then
    Except.error "alias too long"
  else
    Except.ok s

/-- Modelled from the spec: validators.validate_entity_ids is in
validators.py, not under src; every id in the list is validated. -/
def validate_entity_ids (ids : List String) : Except String (List String) :=
  if ids.all (fun s =>
      match validate_entity_id s with
      | Except.ok _ => true
      | Except.error _ => false) then
    Except.ok ids
  else
    Except.error "invalid entity_id"

/-- Modelled from the spec: storage.async_set_aliases_bulk is in
storage.py, not under src; writes the given alias entries into the alias
map of the targeted assistant, leaving all other entries unchanged. -/
def async_set_aliases_bulk (aliases new_aliases : List (String × String)) :
    List (String × String) :=
  new_aliases ++ aliases

/-- The storage state touched by websocket_bulk_update for the targeted
assistant: its filter config and its alias map. -/
structure BulkStorage where
  config : FilterConfig
  aliases : List (String × String)
  deriving Repr, DecidableEq

/-- websocket_bulk_update (api.py lines 478-579): dispatch on the action
string. The filter-config dict mutated in place and re-stored is a full
replace; alias actions build new_aliases from the registry, skipping ids
with no registry entry, and hand it to async_set_aliases_bulk. -/
def websocket_bulk_update (env : Env) (storage : BulkStorage) (action : String)
    (entity_ids : List String) (value : String) : BulkStorage × Response Unit :=
  match validate_entity_ids entity_ids with
  | Except.error e => (storage, Response.error "validation_error" e)
  | Except.ok entity_ids =>
    match validate_alias value with
    | Except.error e => (storage, Response.error "validation_error" e)
    | Except.ok value =>
      let config := storage.config
      if action == "exclude" then
        ({ storage with config :=
            { config with entities := pySetUnion config.entities entity_ids } },
          Response.result ())
      else if action == "unexclude" then
        ({ storage with config :=
            { config with entities := pySetDiff config.entities entity_ids } },
          Response.result ())
      else if action == "add_override" then
        ({ storage with config :=
            { config with overrides := pySetUnion config.overrides entity_ids } },
          Response.result ())
      else if action == "remove_override" then
        ({ storage with config :=
            { config with overrides := pySetDiff config.overrides entity_ids } },
          Response.result ())
      else if action == "set_alias_prefix" then
        let new_aliases := entity_ids.filterMap (fun entity_id =>
          match env.registry.lookup entity_id with
          | some entry => some (entity_id, value ++ resolveName env entity_id entry)
          | none => none)
        ({ storage with aliases := async_set_aliases_bulk storage.aliases new_aliases },
          Response.result ())
      else if action == "set_alias_suffix" then
        let new_aliases := entity_ids.filterMap (fun entity_id =>
          match env.registry.lookup entity_id with
          | some entry => some (entity_id, resolveName env entity_id entry ++ value)
          | none => none)
        ({ storage with aliases := async_set_aliases_bulk storage.aliases new_aliases },
          Response.result ())
      else if action == "clear_alias" then
        let new_aliases := entity_ids.map (fun entity_id => (entity_id, ""))
        ({ storage with aliases := async_set_aliases_bulk storage.aliases new_aliases },
          Response.result ())
      else if action == "exclude_domain" then
        let domains := entity_ids.map (fun entity_id =>
          (entity_id.splitOn ".").headD entity_id)
        ({ storage with config :=
            { config with domains := pySetUnion config.domains domains } },
          Response.result ())
      else if action == "exclude_device" then
        let devices := entity_ids.filterMap (fun entity_id =>
          (env.registry.lookup entity_id).bind (fun entry => entry.device_id))
        ({ storage with config :=
            { config with devices := pySetUnion config.devices devices } },
          Response.result ())
      else
        (storage, Response.result ())

/-- The command boundary of bulk_update: the websocket command schema has
vol.Length(max=MAX_BULK_ENTITIES) on entity_ids, so an oversized request
is rejected before the handler body runs. -/
def bulk_update_command (env : Env) (storage : BulkStorage) (action : String)
    (entity_ids : List String) (value : String) : BulkStorage × Response Unit :=
  if MAX_BULK_ENTITIES < entity_ids.length then
    (storage, Response.error "invalid_format" "entity_ids exceeds maximum length")
  else
    websocket_bulk_update env storage action entity_ids value

/-! ## HomeKit bridge selection (api.py lines 885-908 and 706-713) -/

/-- Modelled from the spec: homekit_manager.get_bridge_config is in
homekit_manager.py, not under src; get_bridge(entry_id) returns the
bridge detail or none. Bridges are the host platform bridge entries,
keyed by entry id. -/
def get_bridge_config (bridges : List (String × String)) (entry_id : String) : Option String :=
  bridges.lookup entry_id

/-- websocket_set_homekit_bridge (api.py lines 885-908): a non-null id is
validated against the known bridges; an unknown id raises HomeKitError,
sent as a homekit_error, and the stored id is unchanged. -/
def websocket_set_homekit_bridge (bridges : List (String × String))
    (stored : Option String) (entry_id : Option String) :
    Option String × Response (Option String) :=
  match entry_id with
  | some eid =>
    match get_bridge_config bridges eid with
    | none => (stored, Response.error "homekit_error" ("HomeKit bridge not found: " ++ eid))
    | some _ => (some eid, Response.result (some eid))
  | none => (none, Response.result none)

/-- The homekit_entry_id branch of websocket_save_all (api.py lines
706-713): an absent field leaves the stored id alone; a present
non-null id is validated the same way before storing. -/
def save_all_homekit_branch (bridges : List (String × String))
    (stored : Option String) (field : Option (Option String)) :
    Option String × Response Unit :=
  match field with
  | none => (stored, Response.result ())
  | some (some eid) =>
    match get_bridge_config bridges eid with
    | none => (stored, Response.error "homekit_error" ("HomeKit bridge not found: " ++ eid))
    | some _ => (some eid, Response.result ())
  | some none => (none, Response.result ())

/-! ## write_files (api.py lines 779-850) -/

structure GoogleSettings where
  enabled : Bool
  project_id : String
  service_account_path : String
  deriving Repr, DecidableEq

structure AlexaSettings where
  enabled : Bool
  deriving Repr, DecidableEq

/-- The storage state read and written by websocket_write_files. -/
structure WriteStorage where
  google_settings : GoogleSettings
  alexa_settings : AlexaSettings
  homekit_entry_id : Option String
  last_generated_google : Option String
  last_generated_alexa : Option String
  last_generated_homekit : Option String
  deriving Repr, DecidableEq

/-- Modelled from the spec: storage.is_google_complete is in storage.py,
not under src; Google requires enabled and non-empty identifying fields
(its project id and service-account path). -/
def is_google_complete (st : WriteStorage) : Bool :=
  st.google_settings.enabled && !(st.google_settings.project_id == "")
    && !(st.google_settings.service_account_path == "")

/-- Modelled from the spec: Alexa requires only enabled. -/
def is_alexa_complete (st : WriteStorage) : Bool :=
  st.alexa_settings.enabled

/-- Modelled from the spec: HomeKit requires a non-null selected bridge. -/
def is_homekit_complete (st : WriteStorage) : Bool :=
  st.homekit_entry_id.isSome

/-- The outcome of each external call websocket_write_files can attempt:
the two generated-file writes and the HomeKit sync can each raise. -/
structure WriteEnv where
  google_write : Except String Unit
  alexa_write : Except String Unit
  homekit_sync : Except String Unit
  deriving Repr

/-- One external call attempted by websocket_write_files. -/
inductive WriteAction where
  | writeGoogle
  | writeAlexa
  | syncHomekit
  deriving Repr, DecidableEq

/-- The per-assistant record in the write_files result. -/
structure AssistantResult where
  written : Bool
  error : Option String
  deriving Repr, DecidableEq

structure WriteFilesResult where
  google : AssistantResult
  alexa : AssistantResult
  homekit : AssistantResult
  deriving Repr, DecidableEq

/-- The Google block of websocket_write_files (api.py lines 798-811):
runs only when is_google_complete; on success records last_generated and
written true; an exception is caught into the error field. The returned
list records the external call if it was attempted. -/
def write_google_step (st : WriteStorage) (outcome : Except String Unit)
    (timestamp : String) : AssistantResult × WriteStorage × List WriteAction :=
  if is_google_complete st then
    match outcome with
    | Except.ok _ =>
      ({ written := true, error := none },
        { st with last_generated_google := some timestamp }, [WriteAction.writeGoogle])
    | Except.error e =>
      ({ written := false, error := some e }, st, [WriteAction.writeGoogle])
  else
    ({ written := false, error := some "Google Assistant settings incomplete or disabled" },
      st, [])

/-- The Alexa block of websocket_write_files (api.py lines 813-827). -/
def write_alexa_step (st : WriteStorage) (outcome : Except String Unit)
    (timestamp : String) : AssistantResult × WriteStorage × List WriteAction :=
  if is_alexa_complete st then
    match outcome with
    | Except.ok _ =>
      ({ written := true, error := none },
        { st with last_generated_alexa := some timestamp }, [WriteAction.writeAlexa])
    | Except.error e =>
      ({ written := false, error := some e }, st, [WriteAction.writeAlexa])
  else
    ({ written := false, error := some "Alexa settings incomplete or disabled" }, st, [])

/-- The HomeKit block of websocket_write_files (api.py lines 829-844). -/
def write_homekit_step (st : WriteStorage) (outcome : Except String Unit)
    (timestamp : String) : AssistantResult × WriteStorage × List WriteAction :=
  if is_homekit_complete st then
    match outcome with
    | Except.ok _ =>
      ({ written := true, error := none },
        { st with last_generated_homekit := some timestamp }, [WriteAction.syncHomekit])
    | Except.error e =>
      ({ written := false, error := some e }, st, [WriteAction.syncHomekit])
  else
    ({ written := false, error := some "No HomeKit bridge configured" }, st, [])

/-- websocket_write_files (api.py lines 779-850): one timestamp is taken
at the start and shared by the three blocks, which run in sequence
regardless of each other; the combined result is sent with send_result. -/
def websocket_write_files (st : WriteStorage) (env : WriteEnv) (timestamp : String) :
    WriteFilesResult × WriteStorage × List WriteAction :=
  let g := write_google_step st env.google_write timestamp
  let a := write_alexa_step g.2.1 env.alexa_write timestamp
  let h := write_homekit_step a.2.1 env.homekit_sync timestamp
  ({ google := g.1, alexa := a.1, homekit := h.1 }, h.2.1, g.2.2 ++ a.2.2 ++ h.2.2)

/-! ## check_config and restart (api.py lines 973-1014) -/

/-- The payload check_config and restart send through send_result: a
success flag and, on failure, the error text. -/
structure ServicePayload where
  success : Bool
  error : Option String
  deriving Repr, DecidableEq

/-- websocket_check_config (api.py lines 973-988): calls the
homeassistant.check_config service; a failing call is sent through
send_result as success false with the error text, not through
send_error. -/
def websocket_check_config (outcome : Except String Unit) : Response ServicePayload :=
  match outcome with
  | Except.ok _ => Response.result { success := true, error := none }
  | Except.error e => Response.result { success := false, error := some e }

/-- websocket_restart (api.py lines 998-1014): same response shape as
websocket_check_config. -/
def websocket_restart (outcome : Except String Unit) : Response ServicePayload :=
  match outcome with
  | Except.ok _ => Response.result { success := true, error := none }
  | Except.error e => Response.result { success := false, error := some e }

/-- The response shape the spec requires of every command: either a
success result or a structured error with kind and message. -/
def isSuccessOrStructuredError (r : Response ServicePayload) : Bool :=
  match r with
  | Response.result p => p.success
  | Response.error _ _ => true

/-! ## Concrete sample data used by the witnesses -/

def emptyEnv : Env := { registry := [], states := [] }

def lampEntry : RegistryEntry :=
  { name := some "Lamp", original_name := none, device_id := none }

def lampEnv : Env := { registry := [("light.a", lampEntry)], states := [] }

def sampleConfig : FilterConfig :=
  { filter_mode := "exclude", domains := ["climate"], entities := ["light.a"],
    devices := [], overrides := ["light.k"] }

def emptyConfig : FilterConfig :=
  { filter_mode := "exclude", domains := [], entities := [], devices := [], overrides := [] }

def sampleBulkStorage : BulkStorage := { config := sampleConfig, aliases := [] }

def emptyBulkStorage : BulkStorage := { config := emptyConfig, aliases := [] }

def completeWriteStorage : WriteStorage :=
  { google_settings := { enabled := true, project_id := "proj", service_account_path := "sa.json" },
    alexa_settings := { enabled := true },
    homekit_entry_id := some "entry1",
    last_generated_google := none,
    last_generated_alexa := none,
    last_generated_homekit := none }

def incompleteWriteStorage : WriteStorage :=
  { google_settings := { enabled := false, project_id := "", service_account_path := "" },
    alexa_settings := { enabled := true },
    homekit_entry_id := none,
    last_generated_google := some "2024-01-01T00:00:00",
    last_generated_alexa := none,
    last_generated_homekit := some "2024-01-01T00:00:00" }

def mixedWriteEnv : WriteEnv :=
  { google_write := Except.error "disk full",
    alexa_write := Except.ok (),
    homekit_sync := Except.ok () }

def allOkEnv : WriteEnv :=
  { google_write := Except.ok (),
    alexa_write := Except.ok (),
    homekit_sync := Except.ok () }

/-! ## Theorems -/

theorem websocket_toggle_override_ok (stored : FilterConfig) (eid : String)
    (hv : validate_entity_id eid = Except.ok eid) :
    websocket_toggle_override stored eid =
      ((async_toggle_override stored eid).1,
        Response.result (eid, (async_toggle_override stored eid).2)) := by
  unfold websocket_toggle_override
  rw [hv]

theorem exposed_congr_of_overrides_mem (C1 C2 : FilterConfig)
    (hm : C1.filter_mode = C2.filter_mode) (hd : C1.domains = C2.domains)
    (he : C1.entities = C2.entities) (hv : C1.devices = C2.devices)
    (ho : ∀ x, x ∈ C1.overrides ↔ x ∈ C2.overrides) (E : EntityDescriptor) :
    exposed E C1 = exposed E C2 := by
  have hc : C1.overrides.contains E.entity_id = C2.overrides.contains E.entity_id := by
    by_cases h : E.entity_id ∈ C2.overrides
    · simp [List.elem_iff, h, (ho E.entity_id).mpr h]
    · have h1 : E.entity_id ∉ C1.overrides := fun hx => h ((ho E.entity_id).mp hx)
      simp [List.elem_iff, h, h1]
  unfold exposed
  rw [hm, hd, he, hv, hc]

theorem async_toggle_override_mem (cfg : FilterConfig) (eid : String)
    (h : eid ∈ cfg.overrides) :
    async_toggle_override cfg eid =
      ({ cfg with overrides := cfg.overrides.filter (fun x => x != eid) }, false) := by
  unfold async_toggle_override
  simp [List.elem_iff, h]

theorem async_toggle_override_not_mem (cfg : FilterConfig) (eid : String)
    (h : eid ∉ cfg.overrides) :
    async_toggle_override cfg eid = ({ cfg with overrides := eid :: cfg.overrides }, true) := by
  unfold async_toggle_override
  simp [List.elem_iff, h]

theorem async_toggle_override_frame (cfg : FilterConfig) (eid : String) :
    (async_toggle_override cfg eid).1.filter_mode = cfg.filter_mode ∧
    (async_toggle_override cfg eid).1.domains = cfg.domains ∧
    (async_toggle_override cfg eid).1.entities = cfg.entities ∧
    (async_toggle_override cfg eid).1.devices = cfg.devices := by
  unfold async_toggle_override
  split <;> simp

theorem async_toggle_override_twice_overrides (cfg : FilterConfig) (eid : String) (x : String) :
    x ∈ (async_toggle_override (async_toggle_override cfg eid).1 eid).1.overrides ↔
      x ∈ cfg.overrides := by
  by_cases h : eid ∈ cfg.overrides
  · rw [async_toggle_override_mem cfg eid h]
    have hni : eid ∉ cfg.overrides.filter (fun y => y != eid) := by
      simp [List.mem_filter]
    rw [async_toggle_override_not_mem _ eid hni]
    simp only [List.mem_cons, List.mem_filter, bne_iff_ne, ne_eq]
    constructor
    · rintro (rfl | ⟨hx, _⟩)
      · exact h
      · exact hx
    · intro hx
      by_cases hxe : x = eid
      · exact Or.inl hxe
      · exact Or.inr ⟨hx, hxe⟩
  · rw [async_toggle_override_not_mem cfg eid h]
    have hm : eid ∈ ({ cfg with overrides := eid :: cfg.overrides } : FilterConfig).overrides := by
      simp
    rw [async_toggle_override_mem _ eid hm]
    simp only [List.mem_filter, List.mem_cons, bne_iff_ne, ne_eq]
    constructor
    · rintro ⟨rfl | hx, hne⟩
      · exact absurd rfl hne
      · exact hx
    · intro hx
      exact ⟨Or.inr hx, fun he => h (he ▸ hx)⟩

/-- C1: every field absent from the partial input keeps its stored value
and every field present replaces the stored value wholesale. -/
theorem set_filter_config_field_merge (stored : FilterConfig) (input : PartialFilterConfig)
    (hmode : (input.filter_mode.getD stored.filter_mode == FILTER_MODE_EXCLUDE
      || input.filter_mode.getD stored.filter_mode == FILTER_MODE_INCLUDE) = true) :
    ((input.filter_mode = none →
        (websocket_set_filter_config stored input).1.filter_mode = stored.filter_mode) ∧
      (∀ m, input.filter_mode = some m →
        (websocket_set_filter_config stored input).1.filter_mode = m)) ∧
    ((input.domains = none →
        (websocket_set_filter_config stored input).1.domains = stored.domains) ∧
      (∀ v, input.domains = some v →
        (websocket_set_filter_config stored input).1.domains = v)) ∧
    ((input.entities = none →
        (websocket_set_filter_config stored input).1.entities = stored.entities) ∧
      (∀ v, input.entities = some v →
        (websocket_set_filter_config stored input).1.entities = v)) ∧
    ((input.devices = none →
        (websocket_set_filter_config stored input).1.devices = stored.devices) ∧
      (∀ v, input.devices = some v →
        (websocket_set_filter_config stored input).1.devices = v)) ∧
    ((input.overrides = none →
        (websocket_set_filter_config stored input).1.overrides = stored.overrides) ∧
      (∀ v, input.overrides = some v →
        (websocket_set_filter_config stored input).1.overrides = v)) := by
  have hstore : (websocket_set_filter_config stored input).1 = mergeFilterConfig input stored := by
    unfold websocket_set_filter_config validate_filter_config
    have hc : ((mergeFilterConfig input stored).filter_mode == FILTER_MODE_EXCLUDE
        || (mergeFilterConfig input stored).filter_mode == FILTER_MODE_INCLUDE) = true := hmode
    simp [hc]
  rw [hstore]
  refine ⟨⟨?_, ?_⟩, ⟨?_, ?_⟩, ⟨?_, ?_⟩, ⟨?_, ?_⟩, ⟨?_, ?_⟩⟩ <;>
    simp_all [mergeFilterConfig]

/-- Witness for C1 at a concrete stored config and a partial input that
sets only the domains field. -/
theorem set_filter_config_field_merge_witness :
    ((websocket_set_filter_config
        { filter_mode := "exclude", domains := ["light"], entities := ["switch.fan"],
          devices := ["dev1"], overrides := ["light.kitchen"] }
        { filter_mode := none, domains := some ["cover"], entities := none,
          devices := none, overrides := none }).1.filter_mode = "exclude") ∧
    ((websocket_set_filter_config
        { filter_mode := "exclude", domains := ["light"], entities := ["switch.fan"],
          devices := ["dev1"], overrides := ["light.kitchen"] }
        { filter_mode := none, domains := some ["cover"], entities := none,
          devices := none, overrides := none }).1.domains = ["cover"]) := by
  have h := set_filter_config_field_merge
    { filter_mode := "exclude", domains := ["light"], entities := ["switch.fan"],
      devices := ["dev1"], overrides := ["light.kitchen"] }
    { filter_mode := none, domains := some ["cover"], entities := none,
      devices := none, overrides := none }
    (by decide)
  exact ⟨h.1.1 rfl, h.2.1.2 ["cover"] rfl⟩

theorem pySetUnion_mem (a b : List String) (x : String) :
    x ∈ pySetUnion a b ↔ x ∈ a ∨ x ∈ b := by
  simp [pySetUnion]

theorem pySetUnion_nodup (a b : List String) : (pySetUnion a b).Nodup :=
  List.nodup_dedup _

theorem websocket_bulk_update_exclude_eq (env : Env) (storage : BulkStorage)
    (entity_ids : List String) (value : String)
    (hids : validate_entity_ids entity_ids = Except.ok entity_ids)
    (hval : validate_alias value = Except.ok value) :
    websocket_bulk_update env storage "exclude" entity_ids value =
      ({ storage with config :=
          { storage.config with entities := pySetUnion storage.config.entities entity_ids } },
        Response.result ()) := by
  unfold websocket_bulk_update
  rw [hids, hval]
  rfl

theorem websocket_bulk_update_alias_pre_eq (env : Env) (storage : BulkStorage)
    (entity_ids : List String) (value : String)
    (hids : validate_entity_ids entity_ids = Except.ok entity_ids)
    (hval : validate_alias value = Except.ok value) :
    websocket_bulk_update env storage "set_alias_prefix" entity_ids value =
      ({ storage with aliases :=
          (async_set_aliases_bulk storage.aliases
            (entity_ids.filterMap (fun entity_id =>
              match env.registry.lookup entity_id with
              | some entry => some (entity_id, value ++ resolveName env entity_id entry)
              | none => none))) },
        Response.result ()) := by
  unfold websocket_bulk_update
  rw [hids, hval]
  rfl

theorem lookup_alias_map_of_mem (env : Env) (value : String) (l : List String)
    (eid : String) (entry : RegistryEntry) (hmem : eid ∈ l)
    (hreg : env.registry.lookup eid = some entry) :
    (l.filterMap (fun entity_id =>
      match env.registry.lookup entity_id with
      | some en => some (entity_id, value ++ resolveName env entity_id en)
      | none => none)).lookup eid = some (value ++ resolveName env eid entry) := by
  induction l with
  | nil => cases hmem
  | cons x xs ih =>
    rcases List.mem_cons.mp hmem with rfl | hmem2
    · simp [List.filterMap_cons, hreg, List.lookup]
    · by_cases hx : x = eid
      · subst hx
        simp [List.filterMap_cons, hreg, List.lookup]
      · cases hrx : env.registry.lookup x with
        | none =>
          simpa [List.filterMap_cons, hrx] using ih hmem2
        | some en =>
          have hbe : (eid == x) = false := by
            exact beq_eq_false_iff_ne.mpr (fun he => hx he.symm)
          simp only [List.filterMap_cons, hrx, List.lookup, hbe]
          exact ih hmem2

theorem lookup_alias_map_of_none (env : Env) (value : String) (l : List String)
    (eid : String) (hreg : env.registry.lookup eid = none) :
    (l.filterMap (fun entity_id =>
      match env.registry.lookup entity_id with
      | some en => some (entity_id, value ++ resolveName env entity_id en)
      | none => none)).lookup eid = none := by
  induction l with
  | nil => rfl
  | cons x xs ih =>
    cases hrx : env.registry.lookup x with
    | none =>
      simpa [List.filterMap_cons, hrx] using ih
    | some en =>
      have hbe : (eid == x) = false := by
        refine beq_eq_false_iff_ne.mpr (fun he => ?_)
        rw [he] at hreg
        rw [hreg] at hrx
        cases hrx
      simp only [List.filterMap_cons, hrx, List.lookup, hbe]
      exact ih

/-- C5: bulk_update with action exclude leaves the entities field
containing each given id exactly once (set semantics), with membership
the union of old entities and the given ids, and every other field of
the configuration, and the aliases, unchanged. -/
theorem bulk_update_exclude_set_semantics (env : Env) (storage : BulkStorage)
    (entity_ids : List String) (value : String)
    (hmode : storage.config.filter_mode = FILTER_MODE_EXCLUDE)
    (hids : validate_entity_ids entity_ids = Except.ok entity_ids)
    (hval : validate_alias value = Except.ok value) :
    (∀ eid ∈ entity_ids,
      (websocket_bulk_update env storage "exclude" entity_ids value).1.config.entities.count
        eid = 1) ∧
    (∀ x,
      x ∈ (websocket_bulk_update env storage "exclude" entity_ids value).1.config.entities ↔
        (x ∈ storage.config.entities ∨ x ∈ entity_ids)) ∧
    (websocket_bulk_update env storage "exclude" entity_ids value).1.config.filter_mode =
      storage.config.filter_mode ∧
    (websocket_bulk_update env storage "exclude" entity_ids value).1.config.domains =
      storage.config.domains ∧
    (websocket_bulk_update env storage "exclude" entity_ids value).1.config.devices =
      storage.config.devices ∧
    (websocket_bulk_update env storage "exclude" entity_ids value).1.config.overrides =
      storage.config.overrides ∧
    (websocket_bulk_update env storage "exclude" entity_ids value).1.aliases =
      storage.aliases := by
  rw [websocket_bulk_update_exclude_eq env storage entity_ids value hids hval]
  refine ⟨?_, ?_, rfl, rfl, rfl, rfl, rfl⟩
  · intro eid hmem
    exact List.count_eq_one_of_mem (pySetUnion_nodup _ _)
      ((pySetUnion_mem _ _ eid).mpr (Or.inr hmem))
  · intro x
    exact pySetUnion_mem _ _ x

/-- Witness for C5: excluding light.b twice alongside light.a, with
light.a already stored, yields each id exactly once and leaves the other
fields alone. -/
theorem bulk_update_exclude_set_semantics_witness :
    ((websocket_bulk_update emptyEnv sampleBulkStorage
        "exclude" ["light.a", "light.b", "light.b"] "").1.config.entities.count "light.b" = 1) ∧
    ((websocket_bulk_update emptyEnv sampleBulkStorage
        "exclude" ["light.a", "light.b", "light.b"] "").1.config.entities.count "light.a" = 1) ∧
    ((websocket_bulk_update emptyEnv sampleBulkStorage
        "exclude" ["light.a", "light.b", "light.b"] "").1.config.overrides = ["light.k"]) := by
  have h := bulk_update_exclude_set_semantics emptyEnv sampleBulkStorage
    ["light.a", "light.b", "light.b"] "" rfl (by rfl) (by rfl)
  exact ⟨h.1 "light.b" (by simp), h.1 "light.a" (by simp), h.2.2.2.2.2.1⟩

/-- C7: bulk_update with action set_alias_prefix gives each registry
entity the alias value followed by its resolved display name, and ids
absent from the registry are skipped without error and get no alias
entry. -/
theorem bulk_update_set_alias_pre (env : Env) (storage : BulkStorage)
    (entity_ids : List String) (value : String)
    (hids : validate_entity_ids entity_ids = Except.ok entity_ids)
    (hval : validate_alias value = Except.ok value) :
    (∀ eid ∈ entity_ids, ∀ entry, env.registry.lookup eid = some entry →
      (websocket_bulk_update env storage "set_alias_prefix" entity_ids
        value).1.aliases.lookup eid = some (value ++ resolveName env eid entry)) ∧
    (∀ eid, env.registry.lookup eid = none →
      (websocket_bulk_update env storage "set_alias_prefix" entity_ids
        value).1.aliases.lookup eid = storage.aliases.lookup eid) ∧
    (websocket_bulk_update env storage "set_alias_prefix" entity_ids value).2 =
      Response.result () ∧
    (websocket_bulk_update env storage "set_alias_prefix" entity_ids value).1.config =
      storage.config := by
  rw [websocket_bulk_update_alias_pre_eq env storage entity_ids value hids hval]
  refine ⟨?_, ?_, rfl, rfl⟩
  · intro eid hmem entry hreg
    unfold async_set_aliases_bulk
    rw [List.lookup_append, lookup_alias_map_of_mem env value entity_ids eid entry hmem hreg]
    rfl
  · intro eid hreg
    unfold async_set_aliases_bulk
    rw [List.lookup_append, lookup_alias_map_of_none env value entity_ids eid hreg]
    rfl

/-- Witness for C7: the registry entity light.a with friendly name Lamp
gets the alias Upstairs Lamp; media_player.x has no registry entry and
keeps no alias. -/
theorem bulk_update_set_alias_pre_witness :
    ((websocket_bulk_update lampEnv emptyBulkStorage
        "set_alias_prefix" ["light.a", "media_player.x"] "Upstairs ").1.aliases.lookup
        "light.a" = some "Upstairs Lamp") ∧
    ((websocket_bulk_update lampEnv emptyBulkStorage
        "set_alias_prefix" ["light.a", "media_player.x"] "Upstairs ").1.aliases.lookup
        "media_player.x" = none) := by
  have h := bulk_update_set_alias_pre lampEnv emptyBulkStorage
    ["light.a", "media_player.x"] "Upstairs " (by rfl) (by rfl)
  constructor
  · rw [h.1 "light.a" (by simp) lampEntry rfl]
    rfl
  · rw [h.2.1 "media_player.x" rfl]
    rfl

/-- C8: a bulk_update request whose entity_ids list exceeds
MAX_BULK_ENTITIES is rejected at the command boundary and causes no
change to the stored configuration. -/
theorem bulk_update_bounded (env : Env) (storage : BulkStorage) (action : String)
    (entity_ids : List String) (value : String)
    (h : MAX_BULK_ENTITIES < entity_ids.length) :
    bulk_update_command env storage action entity_ids value =
      (storage, Response.error "invalid_format" "entity_ids exceeds maximum length") := by
  unfold bulk_update_command
  rw [if_pos h]

/-- Witness for C8 with a 501-element request. -/
theorem bulk_update_bounded_witness :
    bulk_update_command emptyEnv emptyBulkStorage
      "exclude" (List.replicate 501 "light.a") "" =
      (emptyBulkStorage,
        Response.error "invalid_format" "entity_ids exceeds maximum length") :=
  bulk_update_bounded _ _ _ _ _ (by norm_num [MAX_BULK_ENTITIES, List.length_replicate])

/-- C4: websocket_toggle_override reports added true and inserts an absent
id, reports added false and removes a present id, and two consecutive
toggles on the same id restore the overrides membership, every other
field, and every exposure decision. -/
theorem toggle_override_involution (stored : FilterConfig) (eid : String)
    (hv : validate_entity_id eid = Except.ok eid) :
    (eid ∉ stored.overrides →
      (websocket_toggle_override stored eid).2 = Response.result (eid, true) ∧
      eid ∈ (websocket_toggle_override stored eid).1.overrides) ∧
    (eid ∈ stored.overrides →
      (websocket_toggle_override stored eid).2 = Response.result (eid, false) ∧
      eid ∉ (websocket_toggle_override stored eid).1.overrides) ∧
    (∀ x,
      x ∈ (websocket_toggle_override (websocket_toggle_override stored eid).1 eid).1.overrides ↔
        x ∈ stored.overrides) ∧
    (websocket_toggle_override (websocket_toggle_override stored eid).1 eid).1.filter_mode =
      stored.filter_mode ∧
    (websocket_toggle_override (websocket_toggle_override stored eid).1 eid).1.domains =
      stored.domains ∧
    (websocket_toggle_override (websocket_toggle_override stored eid).1 eid).1.entities =
      stored.entities ∧
    (websocket_toggle_override (websocket_toggle_override stored eid).1 eid).1.devices =
      stored.devices ∧
    (∀ E, exposed E (websocket_toggle_override (websocket_toggle_override stored eid).1 eid).1 =
      exposed E stored) := by
  have hw : ∀ cfg : FilterConfig, websocket_toggle_override cfg eid =
      ((async_toggle_override cfg eid).1,
        Response.result (eid, (async_toggle_override cfg eid).2)) :=
    fun cfg => websocket_toggle_override_ok cfg eid hv
  simp only [hw]
  have hfr1 := async_toggle_override_frame stored eid
  have hfr2 := async_toggle_override_frame (async_toggle_override stored eid).1 eid
  have hmem := async_toggle_override_twice_overrides stored eid
  refine ⟨?_, ?_, hmem,
    hfr2.1.trans hfr1.1, hfr2.2.1.trans hfr1.2.1,
    hfr2.2.2.1.trans hfr1.2.2.1, hfr2.2.2.2.trans hfr1.2.2.2, ?_⟩
  · intro h
    rw [async_toggle_override_not_mem stored eid h]
    exact ⟨rfl, List.mem_cons_self eid stored.overrides⟩
  · intro h
    rw [async_toggle_override_mem stored eid h]
    refine ⟨rfl, ?_⟩
    simp [List.mem_filter]
  · intro E
    exact exposed_congr_of_overrides_mem _ _
      (hfr2.1.trans hfr1.1) (hfr2.2.1.trans hfr1.2.1)
      (hfr2.2.2.1.trans hfr1.2.2.1) (hfr2.2.2.2.trans hfr1.2.2.2) hmem E

/-- Witness for C4 at a concrete config and entity id, exercising both
the add direction and the double-toggle round trip. -/
theorem toggle_override_involution_witness :
    ((websocket_toggle_override
        { filter_mode := "exclude", domains := ["light"], entities := [],
          devices := [], overrides := ["light.kitchen"] } "light.hall").2 =
      Response.result ("light.hall", true)) ∧
    ("light.kitchen" ∈ (websocket_toggle_override (websocket_toggle_override
        { filter_mode := "exclude", domains := ["light"], entities := [],
          devices := [], overrides := ["light.kitchen"] } "light.hall").1
          "light.hall").1.overrides ↔ True) := by
  have h := toggle_override_involution
    { filter_mode := "exclude", domains := ["light"], entities := [],
      devices := [], overrides := ["light.kitchen"] } "light.hall" (by rfl)
  refine ⟨(h.1 (by decide)).1, ?_⟩
  rw [h.2.2.1 "light.kitchen"]
  simp

/-- C6: setting the HomeKit bridge to an unknown non-null id fails with a
distinct not-found homekit_error and leaves the stored bridge id
unchanged, in both websocket_set_homekit_bridge and the homekit_entry_id
branch of websocket_save_all; a success response implies the id
references an existing bridge. -/
theorem set_homekit_bridge_validates (bridges : List (String × String))
    (stored : Option String) (eid : String)
    (h : bridges.lookup eid = none) :
    websocket_set_homekit_bridge bridges stored (some eid) =
      (stored, Response.error "homekit_error" ("HomeKit bridge not found: " ++ eid)) ∧
    save_all_homekit_branch bridges stored (some (some eid)) =
      (stored, Response.error "homekit_error" ("HomeKit bridge not found: " ++ eid)) ∧
    (∀ eid2 st2 p, websocket_set_homekit_bridge bridges stored (some eid2) =
        (st2, Response.result p) → ∃ b, bridges.lookup eid2 = some b) := by
  refine ⟨?_, ?_, ?_⟩
  · unfold websocket_set_homekit_bridge get_bridge_config
    simp [h]
  · unfold save_all_homekit_branch get_bridge_config
    simp [h]
  · intro eid2 st2 p hres
    unfold websocket_set_homekit_bridge get_bridge_config at hres
    cases hl : bridges.lookup eid2 with
    | none =>
      simp [hl] at hres
    | some b => exact ⟨b, rfl⟩

/-- Witness for C6: the only known bridge is entry1; selecting zzz fails
with the not-found error and keeps entry1 selected. -/
theorem set_homekit_bridge_validates_witness :
    websocket_set_homekit_bridge [("entry1", "Bridge One")] (some "entry1") (some "zzz") =
      (some "entry1", Response.error "homekit_error" "HomeKit bridge not found: zzz") := by
  rw [(set_homekit_bridge_validates [("entry1", "Bridge One")] (some "entry1") "zzz" rfl).1]
  rfl

theorem write_google_step_incomplete (st : WriteStorage) (o : Except String Unit) (ts : String)
    (hg : is_google_complete st = false) :
    write_google_step st o ts =
      ({ written := false, error := some "Google Assistant settings incomplete or disabled" },
        st, []) := by
  unfold write_google_step
  simp [hg]

theorem write_google_step_ok (st : WriteStorage) (ts : String)
    (hg : is_google_complete st = true) :
    write_google_step st (Except.ok ()) ts =
      ({ written := true, error := none },
        { st with last_generated_google := some ts }, [WriteAction.writeGoogle]) := by
  unfold write_google_step
  simp [hg]

theorem write_google_step_err (st : WriteStorage) (ts : String) (e : String)
    (hg : is_google_complete st = true) :
    write_google_step st (Except.error e) ts =
      ({ written := false, error := some e }, st, [WriteAction.writeGoogle]) := by
  unfold write_google_step
  simp [hg]

theorem write_google_step_frame (st : WriteStorage) (o : Except String Unit) (ts : String) :
    (write_google_step st o ts).2.1.google_settings = st.google_settings ∧
    (write_google_step st o ts).2.1.alexa_settings = st.alexa_settings ∧
    (write_google_step st o ts).2.1.homekit_entry_id = st.homekit_entry_id ∧
    (write_google_step st o ts).2.1.last_generated_alexa = st.last_generated_alexa ∧
    (write_google_step st o ts).2.1.last_generated_homekit = st.last_generated_homekit := by
  unfold write_google_step
  cases o <;> by_cases hg : is_google_complete st <;> simp [hg]

theorem write_alexa_step_frame (st : WriteStorage) (o : Except String Unit) (ts : String) :
    (write_alexa_step st o ts).2.1.google_settings = st.google_settings ∧
    (write_alexa_step st o ts).2.1.alexa_settings = st.alexa_settings ∧
    (write_alexa_step st o ts).2.1.homekit_entry_id = st.homekit_entry_id ∧
    (write_alexa_step st o ts).2.1.last_generated_google = st.last_generated_google ∧
    (write_alexa_step st o ts).2.1.last_generated_homekit = st.last_generated_homekit := by
  unfold write_alexa_step
  cases o <;> by_cases ha : is_alexa_complete st <;> simp [ha]

theorem write_homekit_step_frame (st : WriteStorage) (o : Except String Unit) (ts : String) :
    (write_homekit_step st o ts).2.1.google_settings = st.google_settings ∧
    (write_homekit_step st o ts).2.1.alexa_settings = st.alexa_settings ∧
    (write_homekit_step st o ts).2.1.homekit_entry_id = st.homekit_entry_id ∧
    (write_homekit_step st o ts).2.1.last_generated_google = st.last_generated_google ∧
    (write_homekit_step st o ts).2.1.last_generated_alexa = st.last_generated_alexa := by
  unfold write_homekit_step
  cases o <;> by_cases hh : is_homekit_complete st <;> simp [hh]

theorem write_google_step_alexa_complete (st : WriteStorage) (o : Except String Unit)
    (ts : String) :
    is_alexa_complete (write_google_step st o ts).2.1 = is_alexa_complete st := by
  unfold is_alexa_complete
  rw [(write_google_step_frame st o ts).2.1]

theorem write_google_step_homekit_complete (st : WriteStorage) (o : Except String Unit)
    (ts : String) :
    is_homekit_complete (write_google_step st o ts).2.1 = is_homekit_complete st := by
  unfold is_homekit_complete
  rw [(write_google_step_frame st o ts).2.2.1]

theorem write_alexa_step_homekit_complete (st : WriteStorage) (o : Except String Unit)
    (ts : String) :
    is_homekit_complete (write_alexa_step st o ts).2.1 = is_homekit_complete st := by
  unfold is_homekit_complete
  rw [(write_alexa_step_frame st o ts).2.2.1]

theorem write_google_step_trace (st : WriteStorage) (o : Except String Unit) (ts : String) :
    (write_google_step st o ts).2.2 =
      (if is_google_complete st then [WriteAction.writeGoogle] else []) := by
  unfold write_google_step
  cases o <;> by_cases hg : is_google_complete st <;> simp [hg]

theorem write_alexa_step_trace (st : WriteStorage) (o : Except String Unit) (ts : String) :
    (write_alexa_step st o ts).2.2 =
      (if is_alexa_complete st then [WriteAction.writeAlexa] else []) := by
  unfold write_alexa_step
  cases o <;> by_cases ha : is_alexa_complete st <;> simp [ha]

theorem write_homekit_step_trace (st : WriteStorage) (o : Except String Unit) (ts : String) :
    (write_homekit_step st o ts).2.2 =
      (if is_homekit_complete st then [WriteAction.syncHomekit] else []) := by
  unfold write_homekit_step
  cases o <;> by_cases hh : is_homekit_complete st <;> simp [hh]

theorem write_google_step_written_iff (st : WriteStorage) (o : Except String Unit)
    (ts : String) :
    ((write_google_step st o ts).1.written = true ↔
      (is_google_complete st = true ∧ o = Except.ok ())) := by
  unfold write_google_step
  cases o with
  | ok v =>
    cases v
    by_cases hg : is_google_complete st <;> simp [hg]
  | error e =>
    by_cases hg : is_google_complete st <;> simp [hg]

theorem write_alexa_step_written_iff (st : WriteStorage) (o : Except String Unit)
    (ts : String) :
    ((write_alexa_step st o ts).1.written = true ↔
      (is_alexa_complete st = true ∧ o = Except.ok ())) := by
  unfold write_alexa_step
  cases o with
  | ok v =>
    cases v
    by_cases ha : is_alexa_complete st <;> simp [ha]
  | error e =>
    by_cases ha : is_alexa_complete st <;> simp [ha]

theorem write_homekit_step_written_iff (st : WriteStorage) (o : Except String Unit)
    (ts : String) :
    ((write_homekit_step st o ts).1.written = true ↔
      (is_homekit_complete st = true ∧ o = Except.ok ())) := by
  unfold write_homekit_step
  cases o with
  | ok v =>
    cases v
    by_cases hh : is_homekit_complete st <;> simp [hh]
  | error e =>
    by_cases hh : is_homekit_complete st <;> simp [hh]

theorem write_google_step_written_lg (st : WriteStorage) (o : Except String Unit)
    (ts : String) :
    ((write_google_step st o ts).1.written = true →
      (write_google_step st o ts).2.1.last_generated_google = some ts) ∧
    ((write_google_step st o ts).1.written = false →
      (write_google_step st o ts).2.1.last_generated_google = st.last_generated_google) := by
  unfold write_google_step
  cases o <;> by_cases hg : is_google_complete st <;> simp [hg]

theorem write_alexa_step_written_lg (st : WriteStorage) (o : Except String Unit)
    (ts : String) :
    ((write_alexa_step st o ts).1.written = true →
      (write_alexa_step st o ts).2.1.last_generated_alexa = some ts) ∧
    ((write_alexa_step st o ts).1.written = false →
      (write_alexa_step st o ts).2.1.last_generated_alexa = st.last_generated_alexa) := by
  unfold write_alexa_step
  cases o <;> by_cases ha : is_alexa_complete st <;> simp [ha]

theorem write_homekit_step_written_lg (st : WriteStorage) (o : Except String Unit)
    (ts : String) :
    ((write_homekit_step st o ts).1.written = true →
      (write_homekit_step st o ts).2.1.last_generated_homekit = some ts) ∧
    ((write_homekit_step st o ts).1.written = false →
      (write_homekit_step st o ts).2.1.last_generated_homekit = st.last_generated_homekit) := by
  unfold write_homekit_step
  cases o <;> by_cases hh : is_homekit_complete st <;> simp [hh]

theorem write_alexa_step_incomplete (st : WriteStorage) (o : Except String Unit) (ts : String)
    (ha : is_alexa_complete st = false) :
    write_alexa_step st o ts =
      ({ written := false, error := some "Alexa settings incomplete or disabled" }, st, []) := by
  unfold write_alexa_step
  simp [ha]

theorem write_alexa_step_err (st : WriteStorage) (ts : String) (e : String)
    (ha : is_alexa_complete st = true) :
    write_alexa_step st (Except.error e) ts =
      ({ written := false, error := some e }, st, [WriteAction.writeAlexa]) := by
  unfold write_alexa_step
  simp [ha]

theorem write_homekit_step_incomplete (st : WriteStorage) (o : Except String Unit) (ts : String)
    (hh : is_homekit_complete st = false) :
    write_homekit_step st o ts =
      ({ written := false, error := some "No HomeKit bridge configured" }, st, []) := by
  unfold write_homekit_step
  simp [hh]

theorem write_homekit_step_err (st : WriteStorage) (ts : String) (e : String)
    (hh : is_homekit_complete st = true) :
    write_homekit_step st (Except.error e) ts =
      ({ written := false, error := some e }, st, [WriteAction.syncHomekit]) := by
  unfold write_homekit_step
  simp [hh]

theorem write_files_trace_eq (st : WriteStorage) (env : WriteEnv) (ts : String) :
    (websocket_write_files st env ts).2.2 =
      ((if is_google_complete st then [WriteAction.writeGoogle] else []) ++
        (if is_alexa_complete st then [WriteAction.writeAlexa] else []) ++
        (if is_homekit_complete st then [WriteAction.syncHomekit] else [])) := by
  show (write_google_step st env.google_write ts).2.2 ++
      (write_alexa_step (write_google_step st env.google_write ts).2.1 env.alexa_write ts).2.2 ++
      (write_homekit_step
        (write_alexa_step (write_google_step st env.google_write ts).2.1 env.alexa_write
          ts).2.1 env.homekit_sync ts).2.2 = _
  rw [write_google_step_trace, write_alexa_step_trace, write_homekit_step_trace,
    write_google_step_alexa_complete,
    write_alexa_step_homekit_complete, write_google_step_homekit_complete]

/-- C2: a failure in one assistant write or sync does not prevent
attempting the other two: whether each assistant call is attempted
depends only on its own completeness, independent of every other outcome,
and a failing call is captured in that assistant error field of the
always-complete per-assistant result. -/
theorem write_files_failure_isolation (st : WriteStorage) (env : WriteEnv) (ts : String) :
    (WriteAction.writeGoogle ∈ (websocket_write_files st env ts).2.2 ↔
      is_google_complete st = true) ∧
    (WriteAction.writeAlexa ∈ (websocket_write_files st env ts).2.2 ↔
      is_alexa_complete st = true) ∧
    (WriteAction.syncHomekit ∈ (websocket_write_files st env ts).2.2 ↔
      is_homekit_complete st = true) ∧
    (∀ e, env.google_write = Except.error e → is_google_complete st = true →
      (websocket_write_files st env ts).1.google = { written := false, error := some e }) ∧
    (∀ e, env.alexa_write = Except.error e → is_alexa_complete st = true →
      (websocket_write_files st env ts).1.alexa = { written := false, error := some e }) ∧
    (∀ e, env.homekit_sync = Except.error e → is_homekit_complete st = true →
      (websocket_write_files st env ts).1.homekit = { written := false, error := some e }) := by
  have hst1A := write_google_step_alexa_complete st env.google_write ts
  have hst1H := write_google_step_homekit_complete st env.google_write ts
  have hst2H :=
    (write_alexa_step_homekit_complete (write_google_step st env.google_write ts).2.1
      env.alexa_write ts).trans hst1H
  refine ⟨?_, ?_, ?_, ?_, ?_, ?_⟩
  · rw [write_files_trace_eq]
    by_cases hg : is_google_complete st <;>
      by_cases ha : is_alexa_complete st <;>
      by_cases hh : is_homekit_complete st <;> simp [hg, ha, hh]
  · rw [write_files_trace_eq]
    by_cases hg : is_google_complete st <;>
      by_cases ha : is_alexa_complete st <;>
      by_cases hh : is_homekit_complete st <;> simp [hg, ha, hh]
  · rw [write_files_trace_eq]
    by_cases hg : is_google_complete st <;>
      by_cases ha : is_alexa_complete st <;>
      by_cases hh : is_homekit_complete st <;> simp [hg, ha, hh]
  · intro e he hg
    show (write_google_step st env.google_write ts).1 = _
    rw [he, write_google_step_err st ts e hg]
  · intro e he ha
    show (write_alexa_step (write_google_step st env.google_write ts).2.1
      env.alexa_write ts).1 = _
    rw [he, write_alexa_step_err _ ts e (hst1A.trans ha)]
  · intro e he hh
    show (write_homekit_step
      (write_alexa_step (write_google_step st env.google_write ts).2.1 env.alexa_write
        ts).2.1 env.homekit_sync ts).1 = _
    rw [he, write_homekit_step_err _ ts e (hst2H.trans hh)]

/-- Witness for C2: with every assistant complete and a failing Google
write, the Google failure is captured in its error field while Alexa and
HomeKit are still attempted. -/
theorem write_files_failure_isolation_witness :
    ((websocket_write_files completeWriteStorage mixedWriteEnv "T").1.google =
      { written := false, error := some "disk full" }) ∧
    (WriteAction.writeAlexa ∈ (websocket_write_files completeWriteStorage mixedWriteEnv "T").2.2) ∧
    (WriteAction.syncHomekit ∈
      (websocket_write_files completeWriteStorage mixedWriteEnv "T").2.2) := by
  have h := write_files_failure_isolation completeWriteStorage mixedWriteEnv "T"
  exact ⟨h.2.2.2.1 "disk full" rfl rfl, h.2.1.mpr rfl, h.2.2.1.mpr rfl⟩

/-- C3: an assistant is written (written true) exactly when its
completeness predicate holds and its external call succeeds; when the
predicate is false nothing is attempted for it and the result is written
false with an explanatory error. -/
theorem write_files_completeness_gate (st : WriteStorage) (env : WriteEnv) (ts : String) :
    ((websocket_write_files st env ts).1.google.written = true ↔
      (is_google_complete st = true ∧ env.google_write = Except.ok ())) ∧
    ((websocket_write_files st env ts).1.alexa.written = true ↔
      (is_alexa_complete st = true ∧ env.alexa_write = Except.ok ())) ∧
    ((websocket_write_files st env ts).1.homekit.written = true ↔
      (is_homekit_complete st = true ∧ env.homekit_sync = Except.ok ())) ∧
    (is_google_complete st = false →
      WriteAction.writeGoogle ∉ (websocket_write_files st env ts).2.2 ∧
      (websocket_write_files st env ts).1.google =
        { written := false, error := some "Google Assistant settings incomplete or disabled" }) ∧
    (is_alexa_complete st = false →
      WriteAction.writeAlexa ∉ (websocket_write_files st env ts).2.2 ∧
      (websocket_write_files st env ts).1.alexa =
        { written := false, error := some "Alexa settings incomplete or disabled" }) ∧
    (is_homekit_complete st = false →
      WriteAction.syncHomekit ∉ (websocket_write_files st env ts).2.2 ∧
      (websocket_write_files st env ts).1.homekit =
        { written := false, error := some "No HomeKit bridge configured" }) := by
  have hst1A := write_google_step_alexa_complete st env.google_write ts
  have hst1H := write_google_step_homekit_complete st env.google_write ts
  have hst2H :=
    (write_alexa_step_homekit_complete (write_google_step st env.google_write ts).2.1
      env.alexa_write ts).trans hst1H
  have hiso := write_files_trace_eq st env ts
  refine ⟨?_, ?_, ?_, ?_, ?_, ?_⟩
  · exact write_google_step_written_iff st env.google_write ts
  · refine (write_alexa_step_written_iff _ env.alexa_write ts).trans ?_
    rw [hst1A]
  · refine (write_homekit_step_written_iff _ env.homekit_sync ts).trans ?_
    rw [hst2H]
  · intro hg
    constructor
    · rw [hiso]
      by_cases ha : is_alexa_complete st <;>
        by_cases hh : is_homekit_complete st <;> simp [hg, ha, hh]
    · show (write_google_step st env.google_write ts).1 = _
      rw [write_google_step_incomplete st env.google_write ts hg]
  · intro ha
    constructor
    · rw [hiso]
      by_cases hg : is_google_complete st <;>
        by_cases hh : is_homekit_complete st <;> simp [hg, ha, hh]
    · show (write_alexa_step (write_google_step st env.google_write ts).2.1
        env.alexa_write ts).1 = _
      rw [write_alexa_step_incomplete _ env.alexa_write ts (hst1A.trans ha)]
  · intro hh
    constructor
    · rw [hiso]
      by_cases hg : is_google_complete st <;>
        by_cases ha : is_alexa_complete st <;> simp [hg, ha, hh]
    · show (write_homekit_step
        (write_alexa_step (write_google_step st env.google_write ts).2.1 env.alexa_write
          ts).2.1 env.homekit_sync ts).1 = _
      rw [write_homekit_step_incomplete _ env.homekit_sync ts (hst2H.trans hh)]

/-- Witness for C3: Google is incomplete so it is skipped with the
explanatory error and nothing is attempted for it, while the complete
Alexa write succeeds. -/
theorem write_files_completeness_gate_witness :
    ((websocket_write_files incompleteWriteStorage allOkEnv "T").1.google =
      { written := false, error := some "Google Assistant settings incomplete or disabled" }) ∧
    (WriteAction.writeGoogle ∉ (websocket_write_files incompleteWriteStorage allOkEnv "T").2.2) ∧
    ((websocket_write_files incompleteWriteStorage allOkEnv "T").1.alexa.written = true) := by
  have h := write_files_completeness_gate incompleteWriteStorage allOkEnv "T"
  exact ⟨(h.2.2.2.1 rfl).2, (h.2.2.2.1 rfl).1, h.2.1.mpr ⟨rfl, rfl⟩⟩

/-- C10: an assistant last_generated timestamp is updated exactly on a
successful write or sync, keeps its previous value on a failed or
skipped one, and every assistant written in the same invocation records
the one timestamp taken at the start. -/
theorem write_files_last_generated (st : WriteStorage) (env : WriteEnv) (ts : String) :
    ((websocket_write_files st env ts).1.google.written = true →
      (websocket_write_files st env ts).2.1.last_generated_google = some ts) ∧
    ((websocket_write_files st env ts).1.google.written = false →
      (websocket_write_files st env ts).2.1.last_generated_google =
        st.last_generated_google) ∧
    ((websocket_write_files st env ts).1.alexa.written = true →
      (websocket_write_files st env ts).2.1.last_generated_alexa = some ts) ∧
    ((websocket_write_files st env ts).1.alexa.written = false →
      (websocket_write_files st env ts).2.1.last_generated_alexa =
        st.last_generated_alexa) ∧
    ((websocket_write_files st env ts).1.homekit.written = true →
      (websocket_write_files st env ts).2.1.last_generated_homekit = some ts) ∧
    ((websocket_write_files st env ts).1.homekit.written = false →
      (websocket_write_files st env ts).2.1.last_generated_homekit =
        st.last_generated_homekit) := by
  have hgframe := write_google_step_frame st env.google_write ts
  have haframe := write_alexa_step_frame (write_google_step st env.google_write ts).2.1
    env.alexa_write ts
  have hhframe := write_homekit_step_frame
    (write_alexa_step (write_google_step st env.google_write ts).2.1 env.alexa_write ts).2.1
    env.homekit_sync ts
  have hfinG : (websocket_write_files st env ts).2.1.last_generated_google =
      (write_google_step st env.google_write ts).2.1.last_generated_google :=
    hhframe.2.2.2.1.trans haframe.2.2.2.1
  have hfinA : (websocket_write_files st env ts).2.1.last_generated_alexa =
      (write_alexa_step (write_google_step st env.google_write ts).2.1 env.alexa_write
        ts).2.1.last_generated_alexa :=
    hhframe.2.2.2.2
  have hfinH : (websocket_write_files st env ts).2.1.last_generated_homekit =
      (write_homekit_step
        (write_alexa_step (write_google_step st env.google_write ts).2.1 env.alexa_write
          ts).2.1 env.homekit_sync ts).2.1.last_generated_homekit := rfl
  refine ⟨?_, ?_, ?_, ?_, ?_, ?_⟩
  · intro hw
    rw [hfinG]
    exact (write_google_step_written_lg st env.google_write ts).1 hw
  · intro hw
    rw [hfinG]
    exact (write_google_step_written_lg st env.google_write ts).2 hw
  · intro hw
    rw [hfinA]
    exact (write_alexa_step_written_lg _ env.alexa_write ts).1 hw
  · intro hw
    rw [hfinA]
    rw [(write_alexa_step_written_lg _ env.alexa_write ts).2 hw]
    exact hgframe.2.2.2.1
  · intro hw
    rw [hfinH]
    exact (write_homekit_step_written_lg _ env.homekit_sync ts).1 hw
  · intro hw
    rw [hfinH, (write_homekit_step_written_lg _ env.homekit_sync ts).2 hw,
      haframe.2.2.2.2]
    exact hgframe.2.2.2.2

/-- Witness for C10: Google is skipped so its old timestamp survives;
the successful Alexa write records the timestamp taken at the start. -/
theorem write_files_last_generated_witness :
    ((websocket_write_files incompleteWriteStorage allOkEnv "T").2.1.last_generated_google =
      some "2024-01-01T00:00:00") ∧
    ((websocket_write_files incompleteWriteStorage allOkEnv "T").2.1.last_generated_alexa =
      some "T") := by
  have h := write_files_last_generated incompleteWriteStorage allOkEnv "T"
  exact ⟨h.2.1 (by rfl), h.2.2.1 (by rfl)⟩

/-- Counterexample for C9: a failing check_config service call is
answered with send_result carrying success false and the error text,
which is neither a success result nor a structured kind-message error. -/
theorem check_config_failure_shape_counterexample :
    isSuccessOrStructuredError (websocket_check_config (Except.error "check failed")) =
      false := by
  rfl

/-- C9 amended: every command other than check_config and restart answers
with a success result or a structured kind-message error; check_config
and restart answer a failing service call with a result payload that
labels the failure (success false together with the error text), so no
failure is silently discarded. -/
theorem check_config_restart_labelled (outcome : Except String Unit) :
    (websocket_check_config outcome = Response.result { success := true, error := none } ∨
      ∃ e, outcome = Except.error e ∧
        websocket_check_config outcome =
          Response.result { success := false, error := some e }) ∧
    (websocket_restart outcome = Response.result { success := true, error := none } ∨
      ∃ e, outcome = Except.error e ∧
        websocket_restart outcome =
          Response.result { success := false, error := some e }) := by
  cases outcome with
  | ok v => exact ⟨Or.inl rfl, Or.inl rfl⟩
  | error e => exact ⟨Or.inr ⟨e, rfl, rfl⟩, Or.inr ⟨e, rfl, rfl⟩⟩

end VAM
